import Mathlib

/-!
A shallow embedding of the lifecycle-orchestration core of
scripts/hub-stress-test.py: batched user creation, readiness and stop
polling, the stop/wait/delete teardown pipeline, activity-simulation
chunking, user discovery, and the top-level stress-test driver.
HTTP traffic is modelled by scripted responses; the requests-library
truthiness of a response (the `if resp:` tests in the source) is
`status < 400`.  Thread pools only bound concurrency in the source and
every per-identifier outcome is independent of scheduling, so the
pool stages are modelled as maps over the identifier list in submission
order.  The dry-run mock branches are not modelled: all claims concern
real scripted responses.
-/

namespace HubStress

/-- Username prefix constant of the script (line 30). -/
def USERNAME_PREFIX : String := "hub-stress-test"

/-- Identifier built from the prefix and an index, as in line 386 of the
source (`'%s-%d' % (USERNAME_PREFIX, index)`). -/
def username (i : Nat) : String := USERNAME_PREFIX ++ "-" ++ toString i

/-- The usernames appended by the inner for-loop of create_users
(lines 384-387): batchSize consecutive identifiers starting at index. -/
def batchUsernames (index batchSize : Nat) : List String :=
  (List.range batchSize).map (fun k => username (index + k))

/-- A requests-style HTTP response, reduced to its status code (the only
field the modelled code paths inspect besides logging). -/
structure Resp where
  status : Nat
  deriving DecidableEq

/-- Truthiness of a requests response: status below 400. -/
def Resp.ok (r : Resp) : Bool := decide (r.status < 400)

/-- Message of the exception raised by find_existing_stress_test_users on
a 403 (line 504). -/
def invalidTokenMsg : String := "Invalid token"

/-- Message of the exception raised by create_users on a failed batch
(line 404). -/
def createFailedMsg : String := "Failed to create users."

/-- Outcome of create_users (lines 372-405): the returned batch list when
no exception is raised (none models the raised exception), every batch
whose POST /users request was issued, in order, and the identifiers handed
to the nested best-effort delete_users cleanup call after a failed batch
(exceptions of that nested call are caught and logged, lines 399-403). -/
structure CreateOutcome where
  users : Option (List (List String))
  posts : List (List String)
  cleanup : List String
  deriving DecidableEq

/-- The while loop of create_users (lines 382-404).  postOk scripts the
truthiness of the POST /users response per batch number.  The source
advances index by batchSize every iteration and loops while index is at
most stopAt = count + numExisting, so with 0 < batchSize it runs at most
count iterations; fuel bounds the iteration count and is instantiated
with count + 1 by create_users, which is never exhausted in the situations
the theorems below describe. -/
def createLoop (postOk : Nat → Bool) (stopAt batchSize : Nat) :
    Nat → Nat → Nat → CreateOutcome
  | 0, _, _ => { users := some [], posts := [], cleanup := [] }
  | fuel + 1, index, batchNum =>
    if index ≤ stopAt then
      let names := batchUsernames index batchSize
      if postOk batchNum then
        let rest := createLoop postOk stopAt batchSize fuel (index + batchSize) (batchNum + 1)
        { users := rest.users.map (fun us => names :: us),
          posts := names :: rest.posts,
          cleanup := rest.cleanup }
      else
        { users := none, posts := [names], cleanup := names }
    else { users := some [], posts := [], cleanup := [] }

/-- create_users (lines 372-405).  numExisting is the length of the
existing_users argument; the starting index is numExisting + 1 and the
loop runs while index is at most count + numExisting. -/
def create_users (count batchSize numExisting : Nat) (postOk : Nat → Bool) :
    CreateOutcome :=
  createLoop postOk (count + numExisting) batchSize (count + 1) (numExisting + 1) 0

/-- The list of batch request bodies issued by m consecutive successful
iterations of the create_users loop starting at index. -/
def postsList (index batchSize : Nat) : Nat → List (List String)
  | 0 => []
  | m + 1 => batchUsernames index batchSize :: postsList (index + batchSize) batchSize m

/-- stop_server (lines 267-284) against a scripted DELETE response r.
pollResult scripts what wait_for_server_to_stop would return if called.
The first component is the returned boolean, the second records whether
wait_for_server_to_stop was invoked inside stop_server: on a 204 the
function returns True before the wait branch; on another truthy response
it polls only when wait is set; on a falsy response it returns False. -/
def stop_server (r : Resp) (wait : Bool) (pollResult : Bool) : Bool × Bool :=
  if r.ok then
    if r.status == 204 then (true, false)
    else if wait then (pollResult, true)
    else (true, false)
  else (false, false)

/-- stop_servers (lines 287-307): submits stop_server (with the default
wait=False) for every username over a thread pool and collects the
results into a username-to-boolean map, modelled as an association list
in submission order (completion order only permutes the map and no claim
depends on it). -/
def stop_servers (stopResp : String → Resp) (usernames : List String) :
    List (String × Bool) :=
  usernames.map (fun u => (u, (stop_server (stopResp u) false false).1))

/-- wait_for_servers_to_stop (lines 310-327): for every entry whose stop
request succeeded it calls wait_for_server_to_stop and updates the entry
in place; entries with a failed stop request are skipped.  pollResult
scripts the per-username outcome of wait_for_server_to_stop.  The first
component is the updated map, the second the list of usernames for which
a wait_for_server_to_stop call was issued. -/
def wait_for_servers_to_stop (pollResult : String → Bool)
    (stopped : List (String × Bool)) :
    List (String × Bool) × List String :=
  (stopped.map (fun p => (p.1, if p.2 then pollResult p.1 else p.2)),
   (stopped.filter (fun p => p.2)).map (fun p => p.1))

/-- Per-user success test of the delete stage (lines 345-353): the DELETE
response is truthy, or its status is 404 (user already deleted). -/
def deleteOk (r : Resp) : Bool := r.ok || r.status == 404

/-- delete_users_after_stopping_servers (lines 330-354): issues one DELETE
per entry of the stopped map with no early abort, returning the aggregate
success boolean together with the list of usernames a DELETE request was
issued for, in visit order. -/
def delete_users_after_stopping_servers (deleteResp : String → Resp) :
    List (String × Bool) → Bool × List String
  | [] => (true, [])
  | p :: rest =>
    let t := delete_users_after_stopping_servers deleteResp rest
    (deleteOk (deleteResp p.1) && t.1, p.1 :: t.2)

/-- Observable outcome of the delete_users teardown pipeline: the
aggregate boolean it returns, the usernames wait_for_server_to_stop was
invoked for, the usernames a DELETE request was issued for, and the final
per-username stopped map after the wait stage. -/
structure TeardownOutcome where
  success : Bool
  polled : List String
  deleted : List String
  finalMap : List (String × Bool)
  deriving DecidableEq

/-- delete_users (lines 357-369): stop_servers, then
wait_for_servers_to_stop, then delete_users_after_stopping_servers.
stopResp scripts the DELETE /users/name/server responses, pollResult the
wait_for_server_to_stop outcomes, deleteResp the DELETE /users/name
responses.  (The batch_size argument only sizes the stop-stage thread
pool and does not affect any modelled observable.) -/
def delete_users (usernames : List String) (stopResp : String → Resp)
    (pollResult : String → Bool) (deleteResp : String → Resp) :
    TeardownOutcome :=
  let stopped := stop_servers stopResp usernames
  let ws := wait_for_servers_to_stop pollResult stopped
  let d := delete_users_after_stopping_servers deleteResp ws.1
  { success := d.1, polled := ws.2, deleted := d.2, finalMap := ws.1 }

/-- Timeout constant for server lifecycle polling (line 28). -/
def SERVER_LIFECYCLE_TIMEOUT : Nat := 60

/-- A scripted GET /users/name response as inspected by the readiness
poll loop (lines 450-460): the status code and the ready and pending
flags of the unnamed server sub-record of the parsed body.  The body of
a falsy response is never parsed by the source, so its flags are
irrelevant there. -/
structure GetResp where
  status : Nat
  ready : Bool
  pending : Bool
  deriving DecidableEq

/-- Truthiness of a scripted GET response: status below 400. -/
def GetResp.ok (r : GetResp) : Bool := decide (r.status < 400)

/-- Result of one readiness poll loop: ready or failed after a given
number of completed non-terminal iterations, or timed out. -/
inductive StartPoll where
  | ready (checks : Nat)
  | failed (checks : Nat)
  | timedOut
  deriving DecidableEq

/-- A response on which the readiness loop terminates: truthy with the
ready flag set, or truthy with neither ready nor pending set. -/
def startTerminal (r : GetResp) : Bool := r.ok && (r.ready || !r.pending)

/-- The per-username while loop of wait_for_servers_to_start
(lines 448-479).  script gives the GET response of iteration count
(count starts at 0 as in the source); rem is the remaining iteration
budget SERVER_LIFECYCLE_TIMEOUT - count, so the loop guard
count < SERVER_LIFECYCLE_TIMEOUT is rem > 0.  One GET is issued per
iteration; a truthy response with ready set terminates with ready, a
truthy response with neither ready nor pending terminates with failed,
anything else sleeps one second and continues. -/
def pollStartAux (script : Nat → GetResp) : Nat → Nat → StartPoll
  | 0, _ => .timedOut
  | rem + 1, count =>
    let r := script count
    if r.ok then
      if r.ready then .ready count
      else if r.pending then pollStartAux script rem (count + 1)
      else .failed count
    else pollStartAux script rem (count + 1)

/-- The readiness poll of wait_for_servers_to_start for one username:
the while loop with count starting at 0 and guard
count < SERVER_LIFECYCLE_TIMEOUT. -/
def wait_for_server_to_start (script : Nat → GetResp) : StartPoll :=
  pollStartAux script SERVER_LIFECYCLE_TIMEOUT 0

/-- A scripted GET /users/name response as inspected by the stopped poll
loop (lines 242-258): the status code and whether the servers field of
the parsed body is empty or missing.  The body of a falsy response is
never parsed by the source. -/
structure UserResp where
  status : Nat
  serversEmpty : Bool
  deriving DecidableEq

/-- Truthiness of a scripted user GET response: status below 400. -/
def UserResp.ok (r : UserResp) : Bool := decide (r.status < 400)

/-- A response on which the stopped loop terminates: truthy with an empty
servers collection, or falsy with status 404. -/
def stopTerminal (r : UserResp) : Bool :=
  (r.ok && r.serversEmpty) || (!r.ok && (r.status == 404))

/-- The while loop of wait_for_server_to_stop (lines 240-264).  script
gives the GET response of attempt count (count starts at 1 as in the
source); rem is the remaining budget SERVER_LIFECYCLE_TIMEOUT - count + 1,
so the guard count <= SERVER_LIFECYCLE_TIMEOUT is rem > 0.  A truthy
response with no servers returns True; a falsy 404 returns True (user
already gone); any other response, truthy with servers still present or
falsy with another status, is logged, then the loop sleeps one second and
continues; exhausting the budget returns False (timed out). -/
def pollStopAux (script : Nat → UserResp) : Nat → Nat → Bool
  | 0, _ => false
  | rem + 1, count =>
    let r := script count
    if r.ok then
      if r.serversEmpty then true
      else pollStopAux script rem (count + 1)
    else if r.status == 404 then true
    else pollStopAux script rem (count + 1)

/-- wait_for_server_to_stop (lines 239-264) for one username against a
scripted response sequence: the while loop with count starting at 1 and
guard count <= SERVER_LIFECYCLE_TIMEOUT. -/
def wait_for_server_to_stop (script : Nat → UserResp) : Bool :=
  pollStopAux script SERVER_LIFECYCLE_TIMEOUT 1

/-- Python list slicing in the chunk generator (lines 591-593) via take
and drop: chunkFuel fuel users n yields users[i:i+n] for i = 0, n, 2n, ...
while slices remain; fuel bounds the number of slices and is instantiated
with the list length, which suffices when 0 < n. -/
def chunkFuel : Nat → List String → Nat → List (List String)
  | 0, _, _ => []
  | _, [], _ => []
  | fuel + 1, users, n => users.take n :: chunkFuel fuel (users.drop n) n

/-- The chunk generator of notebook_activity_test (lines 591-593): slices
users into consecutive runs of length n (the final slice may be shorter);
one worker task is submitted per chunk (lines 622-625). -/
def chunk (users : List String) (n : Nat) : List (List String) :=
  chunkFuel users.length users n

/-- A scripted GET /users discovery response: status code and the names
of the returned user records. -/
structure ListUsersResp where
  status : Nat
  names : List String
  deriving DecidableEq

/-- Truthiness of a scripted discovery response: status below 400. -/
def ListUsersResp.ok (r : ListUsersResp) : Bool := decide (r.status < 400)

/-- find_existing_stress_test_users (lines 482-506): on a truthy response
it returns the user names filtered to the stress-test prefix; on a falsy
403 it raises an invalid-token exception (modelled as error); on any
other falsy response it logs a warning and returns the empty list. -/
def find_existing_stress_test_users (resp : ListUsersResp) :
    Except String (List String) :=
  if resp.ok then
    Except.ok (resp.names.filter (fun n => n.startsWith USERNAME_PREFIX))
  else if resp.status == 403 then Except.error invalidTokenMsg
  else Except.ok []

/-- The batch-size clamp at the top of run_stress_test (lines 513-514):
if batch_size > count then batch_size = count. -/
def clampBatchSize (count batchSize : Nat) : Nat :=
  if batchSize > count then count else batchSize

/-- Observable outcome of run_stress_test through its creation stage:
the raised exception message if any, the created batches, the creation
requests issued and the identifiers handed to the failed-batch cleanup. -/
structure RunOutcome where
  error : Option String
  users : Option (List (List String))
  posts : List (List String)
  cleanup : List String
  deriving DecidableEq

/-- run_stress_test (lines 509-534) through its creation stage: clamp the
batch size, discover existing users (an error there aborts the run at
once, before any creation or deletion request), then create the users in
batches.  The start, readiness-wait and optional teardown stages follow
only after creation succeeds and are modelled separately. -/
def run_stress_test (count batchSize : Nat) (listResp : ListUsersResp)
    (postOk : Nat → Bool) : RunOutcome :=
  match find_existing_stress_test_users listResp with
  | Except.error e => { error := some e, users := none, posts := [], cleanup := [] }
  | Except.ok existing =>
    let o := create_users count (clampBatchSize count batchSize) existing.length postOk
    { error := if o.users.isSome then none else some createFailedMsg,
      users := o.users, posts := o.posts, cleanup := o.cleanup }

end HubStress

namespace HubStress

theorem pollStartAux_skip (script : Nat → GetResp) :
    ∀ (j rem count : Nat),
      (∀ i, count ≤ i → i < count + j → startTerminal (script i) = false) →
      pollStartAux script (j + rem) count = pollStartAux script rem (count + j) := by
  intro j
  induction j with
  | zero => intro rem count _h; simp
  | succ j ih =>
    intro rem count h
    have h0 : startTerminal (script count) = false :=
      h count (Nat.le_refl _) (by omega)
    have hstep : pollStartAux script (j + 1 + rem) count =
        pollStartAux script (j + rem) (count + 1) := by
      have hfe : j + 1 + rem = (j + rem) + 1 := by omega
      rw [hfe]
      simp only [pollStartAux]
      cases hok : (script count).ok
      · simp [hok]
      · cases hr : (script count).ready
        · cases hp : (script count).pending
          · exfalso
            unfold startTerminal at h0
            rw [hok, hr, hp] at h0
            simp at h0
          · simp [hok, hr, hp]
        · exfalso
          unfold startTerminal at h0
          rw [hok, hr] at h0
          simp at h0
    rw [hstep, ih rem (count + 1) (fun i h1 h2 => h i (by omega) (by omega))]
    congr 1
    omega

theorem pollStopAux_skip (script : Nat → UserResp) :
    ∀ (j rem count : Nat),
      (∀ i, count ≤ i → i < count + j → stopTerminal (script i) = false) →
      pollStopAux script (j + rem) count = pollStopAux script rem (count + j) := by
  intro j
  induction j with
  | zero => intro rem count _h; simp
  | succ j ih =>
    intro rem count h
    have h0 : stopTerminal (script count) = false :=
      h count (Nat.le_refl _) (by omega)
    have hstep : pollStopAux script (j + 1 + rem) count =
        pollStopAux script (j + rem) (count + 1) := by
      have hfe : j + 1 + rem = (j + rem) + 1 := by omega
      rw [hfe]
      simp only [pollStopAux]
      cases hok : (script count).ok
      · cases h4 : ((script count).status == 404)
        · simp [hok, h4]
        · exfalso
          unfold stopTerminal at h0
          rw [hok, h4] at h0
          simp at h0
      · cases hse : (script count).serversEmpty
        · simp [hok, hse]
        · exfalso
          unfold stopTerminal at h0
          rw [hok, hse] at h0
          simp at h0
    rw [hstep, ih rem (count + 1) (fun i h1 h2 => h i (by omega) (by omega))]
    congr 1
    omega

/-- Claim C4: against a scripted sequence of GET responses the readiness
poll returns ready at the first truthy response with the ready flag set,
failed at the first truthy response with neither ready nor pending set,
and timedOut after exactly SERVER_LIFECYCLE_TIMEOUT = 60 non-terminal
iterations, one GET per iteration. -/
theorem spec_c4 (script : Nat → GetResp) (k : Nat) :
    ((∀ i, i < SERVER_LIFECYCLE_TIMEOUT → startTerminal (script i) = false) →
      wait_for_server_to_start script = StartPoll.timedOut)
  ∧ (k < SERVER_LIFECYCLE_TIMEOUT →
      (∀ i, i < k → startTerminal (script i) = false) →
      (((script k).ok = true → (script k).ready = true →
          wait_for_server_to_start script = StartPoll.ready k)
       ∧ ((script k).ok = true → (script k).ready = false →
          (script k).pending = false →
          wait_for_server_to_start script = StartPoll.failed k))) := by
  constructor
  · intro h
    have hskip := pollStartAux_skip script SERVER_LIFECYCLE_TIMEOUT 0 0
      (fun i _hi1 hi2 => h i (by omega))
    rw [Nat.add_zero] at hskip
    unfold wait_for_server_to_start
    rw [hskip]
    rfl
  · intro hk hpre
    have hskip := pollStartAux_skip script k (SERVER_LIFECYCLE_TIMEOUT - k) 0
      (fun i _hi1 hi2 => hpre i (by omega))
    have hw : wait_for_server_to_start script =
        pollStartAux script (SERVER_LIFECYCLE_TIMEOUT - k) k := by
      unfold wait_for_server_to_start
      rw [show SERVER_LIFECYCLE_TIMEOUT = k + (SERVER_LIFECYCLE_TIMEOUT - k) from by omega]
      rw [hskip]
      congr 1
      all_goals omega
    obtain ⟨m, hm⟩ : ∃ m, SERVER_LIFECYCLE_TIMEOUT - k = m + 1 :=
      ⟨SERVER_LIFECYCLE_TIMEOUT - k - 1, by omega⟩
    constructor
    · intro hok hready
      rw [hw, hm]
      simp only [pollStartAux]
      simp [hok, hready]
    · intro hok hready hpending
      rw [hw, hm]
      simp only [pollStartAux]
      simp [hok, hready, hpending]

theorem spec_c4_witness :
    wait_for_server_to_start
      (fun i => if i = 2 then ⟨200, true, false⟩ else ⟨200, false, true⟩) =
      StartPoll.ready 2
  ∧ wait_for_server_to_start (fun _ => ⟨200, false, true⟩) = StartPoll.timedOut := by
  constructor
  · exact ((spec_c4 (fun i => if i = 2 then ⟨200, true, false⟩ else ⟨200, false, true⟩) 2).2
      (by decide) (by decide)).1 (by decide) (by decide)
  · exact (spec_c4 (fun _ => ⟨200, false, true⟩) 0).1 (by decide)

/-- Claim C5: in the stopped poll loop a 404 GET response is terminal
success (returns true at once), while a non-404 falsy response on an
iteration is non-terminal: the loop continues with the next iteration and
the remaining budget instead of aborting. -/
theorem spec_c5 (script : Nat → UserResp) (k : Nat)
    (h1 : 1 ≤ k) (h2 : k ≤ SERVER_LIFECYCLE_TIMEOUT)
    (hpre : ∀ i, i < k → 1 ≤ i → stopTerminal (script i) = false) :
    ((script k).status = 404 → wait_for_server_to_stop script = true)
  ∧ ((script k).ok = false → (script k).status ≠ 404 →
      wait_for_server_to_stop script =
        pollStopAux script (SERVER_LIFECYCLE_TIMEOUT - k) (k + 1)) := by
  have hskip := pollStopAux_skip script (k - 1) (SERVER_LIFECYCLE_TIMEOUT - k + 1) 1
    (fun i hi1 hi2 => hpre i (by omega) (by omega))
  have hw : wait_for_server_to_stop script =
      pollStopAux script (SERVER_LIFECYCLE_TIMEOUT - k + 1) k := by
    unfold wait_for_server_to_stop
    rw [show SERVER_LIFECYCLE_TIMEOUT = (k - 1) + (SERVER_LIFECYCLE_TIMEOUT - k + 1) from by omega]
    rw [hskip]
    congr 1
    all_goals omega
  constructor
  · intro h404
    have hok : (script k).ok = false := by
      unfold UserResp.ok
      rw [decide_eq_false_iff_not]
      omega
    rw [hw]
    simp only [pollStopAux]
    simp [hok, h404]
  · intro hok hne
    rw [hw]
    simp only [pollStopAux]
    simp [hok, hne]

theorem spec_c5_witness :
    wait_for_server_to_stop (fun i => if i = 3 then ⟨404, false⟩ else ⟨200, false⟩) = true
  ∧ wait_for_server_to_stop (fun _ => ⟨500, false⟩) =
      pollStopAux (fun _ => ⟨500, false⟩) (SERVER_LIFECYCLE_TIMEOUT - 1) (1 + 1) := by
  constructor
  · exact (spec_c5 (fun i => if i = 3 then ⟨404, false⟩ else ⟨200, false⟩) 3
      (by decide) (by decide) (by decide)).1 (by decide)
  · exact (spec_c5 (fun _ => ⟨500, false⟩) 1
      (by decide) (by decide) (by decide)).2 (by decide) (by decide)

end HubStress

namespace HubStress

theorem deleteStage_snd (deleteResp : String → Resp) (l : List (String × Bool)) :
    (delete_users_after_stopping_servers deleteResp l).2 = l.map (fun p => p.1) := by
  induction l with
  | nil => rfl
  | cons p rest ih => simp [delete_users_after_stopping_servers, ih]

theorem deleteStage_fst (deleteResp : String → Resp) (l : List (String × Bool)) :
    (delete_users_after_stopping_servers deleteResp l).1 =
      l.all (fun p => deleteOk (deleteResp p.1)) := by
  induction l with
  | nil => rfl
  | cons p rest ih => simp [delete_users_after_stopping_servers, ih, List.all_cons]

theorem deleteOk_false_iff (r : Resp) (h1 : 200 ≤ r.status)
    (h2 : r.status < 300 ∨ 400 ≤ r.status) :
    deleteOk r = false ↔
      ¬(200 ≤ r.status ∧ r.status < 300) ∧ r.status ≠ 404 := by
  simp only [deleteOk, Resp.ok, Bool.or_eq_false_iff, decide_eq_false_iff_not,
    beq_eq_false_iff_ne, ne_eq]
  omega

theorem deleteStage_false_iff (deleteResp : String → Resp) (l : List (String × Bool))
    (hreal : ∀ p ∈ l, 200 ≤ (deleteResp p.1).status ∧
      ((deleteResp p.1).status < 300 ∨ 400 ≤ (deleteResp p.1).status)) :
    (delete_users_after_stopping_servers deleteResp l).1 = false ↔
      ∃ p ∈ l, ¬(200 ≤ (deleteResp p.1).status ∧ (deleteResp p.1).status < 300) ∧
        (deleteResp p.1).status ≠ 404 := by
  rw [deleteStage_fst, List.all_eq_false]
  constructor
  · rintro ⟨p, hp, hfail⟩
    exact ⟨p, hp, (deleteOk_false_iff _ (hreal p hp).1 (hreal p hp).2).mp
      (by simpa using hfail)⟩
  · rintro ⟨p, hp, hcond⟩
    exact ⟨p, hp, by
      simp [(deleteOk_false_iff _ (hreal p hp).1 (hreal p hp).2).mpr hcond]⟩

theorem stop_server_nowait (r : Resp) :
    stop_server r false false = (r.ok, false) := by
  unfold stop_server
  cases hok : r.ok <;> simp [hok]

theorem delete_users_polled (usernames : List String) (stopResp : String → Resp)
    (pollResult : String → Bool) (deleteResp : String → Resp) :
    (delete_users usernames stopResp pollResult deleteResp).polled =
      usernames.filter (fun u => (stopResp u).ok) := by
  simp only [delete_users, wait_for_servers_to_stop, stop_servers, stop_server_nowait]
  induction usernames with
  | nil => rfl
  | cons u rest ih =>
    simp only [List.map_cons, List.filter_cons]
    cases hok : (stopResp u).ok
    · simpa [hok] using ih
    · simpa [hok] using ih

/-- Claim C6: the delete stage visits every identifier with no early
abort, and the aggregated result is false exactly when some delete
request was answered with a non-2xx, non-404 status (responses are
assumed to be final ones, 2xx or at least 400, as the requests facade
resolves redirects and informational responses). -/
theorem spec_c6 (deleteResp : String → Resp) (stopped : List (String × Bool))
    (hreal : ∀ p ∈ stopped, 200 ≤ (deleteResp p.1).status ∧
      ((deleteResp p.1).status < 300 ∨ 400 ≤ (deleteResp p.1).status)) :
    (delete_users_after_stopping_servers deleteResp stopped).2 =
      stopped.map (fun p => p.1)
  ∧ ((delete_users_after_stopping_servers deleteResp stopped).1 = false ↔
      ∃ p ∈ stopped,
        ¬(200 ≤ (deleteResp p.1).status ∧ (deleteResp p.1).status < 300) ∧
        (deleteResp p.1).status ≠ 404) :=
  ⟨deleteStage_snd deleteResp stopped, deleteStage_false_iff deleteResp stopped hreal⟩

theorem spec_c6_witness :
    (delete_users_after_stopping_servers (fun _ => ⟨500⟩) [(username 1, true)]).2 =
      [username 1]
  ∧ (delete_users_after_stopping_servers (fun _ => ⟨500⟩) [(username 1, true)]).1 =
      false := by
  have h := spec_c6 (fun _ => ⟨500⟩) [(username 1, true)] (by decide)
  refine ⟨by simpa using h.1, ?_⟩
  exact h.2.mpr ⟨(username 1, true), by simp, by decide, by decide⟩

/-- Claim C3, counterexample: in the delete_users pipeline an identifier
whose stop request was answered 204 is nevertheless polled, contradicting
the claim that no wait_for_server_to_stop call is ever issued for it. -/
theorem spec_c3_counterexample :
    username 1 ∈ (delete_users [username 1] (fun _ => ⟨204⟩)
      (fun _ => true) (fun _ => ⟨204⟩)).polled := by
  decide

/-- Claim C3 as amended: stop_server itself short-circuits on 204 (with
wait set it returns success without invoking wait_for_server_to_stop),
but the delete_users pipeline calls stop_server without wait, so
wait_for_servers_to_stop subsequently polls every identifier whose stop
request was truthy, including those answered 204. -/
theorem spec_c3_amended (r : Resp) (pollResult0 : Bool) (usernames : List String)
    (stopResp : String → Resp) (pollResult : String → Bool)
    (deleteResp : String → Resp) (h204 : r.status = 204) :
    stop_server r true pollResult0 = (true, false)
  ∧ (delete_users usernames stopResp pollResult deleteResp).polled =
      usernames.filter (fun u => (stopResp u).ok) := by
  constructor
  · unfold stop_server Resp.ok
    rw [h204]
    simp
  · exact delete_users_polled usernames stopResp pollResult deleteResp

theorem spec_c3_amended_witness :
    stop_server ⟨204⟩ true false = (true, false)
  ∧ (delete_users [username 1, username 2]
      (fun u => if u = username 1 then (⟨204⟩ : Resp) else ⟨500⟩)
      (fun _ => true) (fun _ => (⟨204⟩ : Resp))).polled = [username 1] := by
  have h := spec_c3_amended (⟨204⟩ : Resp) false [username 1, username 2]
    (fun u => if u = username 1 then (⟨204⟩ : Resp) else ⟨500⟩)
    (fun _ => true) (fun _ => (⟨204⟩ : Resp)) rfl
  exact ⟨h.1, by rw [h.2]; decide⟩

/-- Claim C7, counterexample: with stop responses 204 for A and C but 500
for B, and every delete answered 204, delete_users returns overall
success, contradicting the claim that a failed stop request makes the run
report overall failure. -/
theorem spec_c7_counterexample :
    (delete_users [username 1, username 2, username 3]
      (fun u => if u = username 2 then ⟨500⟩ else ⟨204⟩)
      (fun _ => true) (fun _ => ⟨204⟩)).success = true := by
  decide

/-- Claim C7 as amended: when stop requests for A and C succeed while the
one for B fails, A and C are polled to stopped (and their outcomes stay
confirmed), B is never waited on, every identifier is still attempted for
deletion, and the overall boolean reflects only the delete stage: it is
false exactly when some delete request was answered with a non-2xx,
non-404 status — a stop failure alone does not make the run report
failure. -/
theorem spec_c7_amended (a b c : String) (stopResp : String → Resp)
    (pollResult : String → Bool) (deleteResp : String → Resp)
    (hA : (stopResp a).ok = true) (hB : (stopResp b).ok = false)
    (hC : (stopResp c).ok = true)
    (hPA : pollResult a = true) (hPC : pollResult c = true)
    (hra : 200 ≤ (deleteResp a).status ∧
      ((deleteResp a).status < 300 ∨ 400 ≤ (deleteResp a).status))
    (hrb : 200 ≤ (deleteResp b).status ∧
      ((deleteResp b).status < 300 ∨ 400 ≤ (deleteResp b).status))
    (hrc : 200 ≤ (deleteResp c).status ∧
      ((deleteResp c).status < 300 ∨ 400 ≤ (deleteResp c).status)) :
    (delete_users [a, b, c] stopResp pollResult deleteResp).polled = [a, c]
  ∧ (delete_users [a, b, c] stopResp pollResult deleteResp).deleted = [a, b, c]
  ∧ (delete_users [a, b, c] stopResp pollResult deleteResp).finalMap =
      [(a, true), (b, false), (c, true)]
  ∧ ((delete_users [a, b, c] stopResp pollResult deleteResp).success = false ↔
      ((¬(200 ≤ (deleteResp a).status ∧ (deleteResp a).status < 300) ∧
          (deleteResp a).status ≠ 404)
       ∨ (¬(200 ≤ (deleteResp b).status ∧ (deleteResp b).status < 300) ∧
          (deleteResp b).status ≠ 404)
       ∨ (¬(200 ≤ (deleteResp c).status ∧ (deleteResp c).status < 300) ∧
          (deleteResp c).status ≠ 404))) := by
  have hstopped : stop_servers stopResp [a, b, c] = [(a, true), (b, false), (c, true)] := by
    simp [stop_servers, stop_server_nowait, hA, hB, hC]
  have hws : wait_for_servers_to_stop pollResult [(a, true), (b, false), (c, true)] =
      ([(a, true), (b, false), (c, true)], [a, c]) := by
    simp [wait_for_servers_to_stop, hPA, hPC]
  have key : delete_users [a, b, c] stopResp pollResult deleteResp =
      { success := (delete_users_after_stopping_servers deleteResp
            [(a, true), (b, false), (c, true)]).1,
        polled := [a, c],
        deleted := (delete_users_after_stopping_servers deleteResp
            [(a, true), (b, false), (c, true)]).2,
        finalMap := [(a, true), (b, false), (c, true)] } := by
    simp only [delete_users]
    rw [hstopped, hws]
  have hreal3 : ∀ p ∈ [(a, true), (b, false), (c, true)],
      200 ≤ (deleteResp p.1).status ∧
      ((deleteResp p.1).status < 300 ∨ 400 ≤ (deleteResp p.1).status) := by
    intro p hp
    simp only [List.mem_cons, List.not_mem_nil, or_false] at hp
    rcases hp with rfl | rfl | rfl
    · exact hra
    · exact hrb
    · exact hrc
  rw [key]
  refine ⟨rfl, ?_, rfl, ?_⟩
  · simpa using deleteStage_snd deleteResp [(a, true), (b, false), (c, true)]
  · constructor
    · intro hfalse
      rcases (deleteStage_false_iff deleteResp _ hreal3).mp hfalse with ⟨p, hp, hP⟩
      simp only [List.mem_cons, List.not_mem_nil, or_false] at hp
      rcases hp with rfl | rfl | rfl
      · exact Or.inl hP
      · exact Or.inr (Or.inl hP)
      · exact Or.inr (Or.inr hP)
    · rintro (h | h | h)
      · exact (deleteStage_false_iff deleteResp _ hreal3).mpr ⟨(a, true), by simp, h⟩
      · exact (deleteStage_false_iff deleteResp _ hreal3).mpr ⟨(b, false), by simp, h⟩
      · exact (deleteStage_false_iff deleteResp _ hreal3).mpr ⟨(c, true), by simp, h⟩

theorem spec_c7_amended_witness :
    (delete_users [username 1, username 2, username 3]
      (fun u => if u = username 2 then ⟨500⟩ else ⟨204⟩)
      (fun _ => true) (fun _ => (⟨400⟩ : Resp))).polled = [username 1, username 3]
  ∧ (delete_users [username 1, username 2, username 3]
      (fun u => if u = username 2 then ⟨500⟩ else ⟨204⟩)
      (fun _ => true) (fun _ => (⟨400⟩ : Resp))).deleted =
      [username 1, username 2, username 3]
  ∧ (delete_users [username 1, username 2, username 3]
      (fun u => if u = username 2 then ⟨500⟩ else ⟨204⟩)
      (fun _ => true) (fun _ => (⟨400⟩ : Resp))).finalMap =
      [(username 1, true), (username 2, false), (username 3, true)]
  ∧ ((delete_users [username 1, username 2, username 3]
      (fun u => if u = username 2 then ⟨500⟩ else ⟨204⟩)
      (fun _ => true) (fun _ => (⟨400⟩ : Resp))).success = false ↔
      ((¬(200 ≤ 400 ∧ 400 < 300) ∧ 400 ≠ 404)
       ∨ (¬(200 ≤ 400 ∧ 400 < 300) ∧ 400 ≠ 404)
       ∨ (¬(200 ≤ 400 ∧ 400 < 300) ∧ 400 ≠ 404))) :=
  spec_c7_amended (username 1) (username 2) (username 3)
    (fun u => if u = username 2 then ⟨500⟩ else ⟨204⟩)
    (fun _ => true) (fun _ => (⟨400⟩ : Resp))
    (by decide) (by decide) (by decide) (by decide) (by decide)
    (by decide) (by decide) (by decide)

end HubStress

namespace HubStress

theorem chunkFuel_flatten (n : Nat) (hn : 0 < n) :
    ∀ (fuel : Nat) (users : List String), users.length ≤ fuel →
      (chunkFuel fuel users n).flatten = users := by
  intro fuel
  induction fuel with
  | zero =>
    intro users h
    have he : users = [] := List.eq_nil_of_length_eq_zero (by omega)
    subst he
    rfl
  | succ f ih =>
    intro users h
    cases users with
    | nil => rfl
    | cons a l =>
      have hd : (List.drop n (a :: l)).length ≤ f := by
        simp only [List.length_drop, List.length_cons]
        simp only [List.length_cons] at h
        omega
      simp only [chunkFuel, List.flatten_cons]
      rw [ih _ hd, List.take_append_drop]

theorem chunkFuel_length (n : Nat) (hn : 0 < n) :
    ∀ (fuel : Nat) (users : List String), users.length ≤ fuel →
      (chunkFuel fuel users n).length = (users.length + n - 1) / n := by
  intro fuel
  induction fuel with
  | zero =>
    intro users h
    have he : users = [] := List.eq_nil_of_length_eq_zero (by omega)
    subst he
    simp [chunkFuel, Nat.div_eq_of_lt (show n - 1 < n by omega)]
  | succ f ih =>
    intro users h
    cases users with
    | nil => simp [chunkFuel, Nat.div_eq_of_lt (show n - 1 < n by omega)]
    | cons a l =>
      have hd : (List.drop n (a :: l)).length ≤ f := by
        simp only [List.length_drop, List.length_cons]
        simp only [List.length_cons] at h
        omega
      simp only [chunkFuel, List.length_cons, ih _ hd, List.length_drop]
      rcases Nat.lt_or_ge (l.length + 1) n with hc | hc
      · have e1 : l.length + 1 - n + n - 1 = n - 1 := by omega
        have e2 : l.length + 1 + n - 1 = (l.length + 1 - 1) + n := by omega
        rw [e1, e2, Nat.add_div_right _ hn,
          Nat.div_eq_of_lt (show n - 1 < n by omega),
          Nat.div_eq_of_lt (show l.length + 1 - 1 < n by omega)]
      · have e1 : l.length + 1 - n + n - 1 = l.length + 1 - 1 := by omega
        have e2 : l.length + 1 + n - 1 = (l.length + 1 - 1) + n := by omega
        rw [e1, e2, Nat.add_div_right _ hn]

/-- Claim C2, counterexample: with 10 identifiers and 3 workers the chunk
size is 10 / 3 = 3, but chunking produces 4 worker tasks covering all 10
identifiers, not 3 tasks covering 9. -/
theorem spec_c2_counterexample :
    ¬((chunk ((List.range 10).map username)
        (((List.range 10).map username).length / 3)).length = 3
      ∧ (chunk ((List.range 10).map username)
        (((List.range 10).map username).length / 3)).flatten.length = 9) := by
  decide

/-- Claim C2 as amended: with 1 <= W <= L the identifier list is split
into contiguous chunks of size n = L / W with a final shorter chunk
holding the remainder; no identifier is dropped (the concatenation of the
chunks is the whole list) and ceil(L / n) = (L + n - 1) / n worker tasks
are produced (4 tasks for L = 10, W = 3, not 3). -/
theorem spec_c2_amended (users : List String) (W : Nat)
    (hW : 0 < W) (hWL : W ≤ users.length) :
    (chunk users (users.length / W)).flatten = users
  ∧ (chunk users (users.length / W)).length =
      (users.length + users.length / W - 1) / (users.length / W) := by
  have hn : 0 < users.length / W := (Nat.one_le_div_iff hW).mpr hWL
  exact ⟨chunkFuel_flatten _ hn _ _ (Nat.le_refl _),
    chunkFuel_length _ hn _ _ (Nat.le_refl _)⟩

theorem spec_c2_amended_witness :
    (chunk ((List.range 10).map username)
      (((List.range 10).map username).length / 3)).flatten =
      (List.range 10).map username
  ∧ (chunk ((List.range 10).map username)
      (((List.range 10).map username).length / 3)).length = 4 := by
  have h := spec_c2_amended ((List.range 10).map username) 3 (by decide) (by decide)
  exact ⟨h.1, by rw [h.2]; decide⟩

theorem createLoop_firstFail (postOk : Nat → Bool) (stopAt batchSize : Nat) :
    ∀ (k fuel index b : Nat),
      (∀ j, j < k → postOk (b + j) = true) →
      postOk (b + k) = false →
      index + k * batchSize ≤ stopAt →
      k + 1 ≤ fuel →
      createLoop postOk stopAt batchSize fuel index b =
        { users := none,
          posts := postsList index batchSize (k + 1),
          cleanup := batchUsernames (index + k * batchSize) batchSize } := by
  intro k
  induction k with
  | zero =>
    intro fuel index b _hpre hfail hle hfuel
    obtain ⟨f, rfl⟩ : ∃ f, fuel = f + 1 := ⟨fuel - 1, by omega⟩
    rw [Nat.add_zero] at hfail
    simp only [createLoop]
    rw [if_pos (show index ≤ stopAt by omega)]
    simp [hfail, postsList]
  | succ k ih =>
    intro fuel index b hpre hfail hle hfuel
    obtain ⟨f, rfl⟩ : ∃ f, fuel = f + 1 := ⟨fuel - 1, by omega⟩
    have hidx : index ≤ stopAt := Nat.le_trans (Nat.le_add_right _ _) hle
    have hb0 : postOk b = true := by
      have hx := hpre 0 (by omega)
      rwa [Nat.add_zero] at hx
    have hrest := ih f (index + batchSize) (b + 1)
      (fun j hj => by
        rw [show b + 1 + j = b + (j + 1) from by omega]
        exact hpre (j + 1) (by omega))
      (by
        rw [show b + 1 + k = b + (k + 1) from by omega]
        exact hfail)
      (by
        rw [show index + batchSize + k * batchSize = index + (k + 1) * batchSize from by ring]
        exact hle)
      (by omega)
    simp only [createLoop]
    rw [if_pos hidx, if_pos hb0, hrest]
    have harg : index + batchSize + k * batchSize = index + (k + 1) * batchSize := by ring
    simp [postsList, harg]

/-- Claim C8: when the creation request of batch k is the first to fail,
create_users issues exactly the requests for batches 0 .. k, hands
exactly the identifiers of the failed batch k to the best-effort cleanup
delete, and the whole creation operation fails (no further batches are
attempted). -/
theorem spec_c8 (count batchSize numExisting k : Nat) (postOk : Nat → Bool)
    (hb : 0 < batchSize)
    (hpre : ∀ j, j < k → postOk j = true)
    (hfail : postOk k = false)
    (hk : k * batchSize < count) :
    create_users count batchSize numExisting postOk =
      { users := none,
        posts := postsList (numExisting + 1) batchSize (k + 1),
        cleanup := batchUsernames (numExisting + 1 + k * batchSize) batchSize } := by
  have hkc : k ≤ count := by
    have h1 : k ≤ k * batchSize := Nat.le_mul_of_pos_right k hb
    omega
  exact createLoop_firstFail postOk (count + numExisting) batchSize k (count + 1)
    (numExisting + 1) 0
    (fun j hj => by
      have hx := hpre j hj
      rwa [Nat.zero_add])
    (by rwa [Nat.zero_add])
    (by omega)
    (by omega)

theorem spec_c8_witness :
    create_users 25 10 0 (fun j => j == 0) =
      { users := none, posts := postsList 1 10 2, cleanup := batchUsernames 11 10 } := by
  have h := spec_c8 25 10 0 1 (fun j => j == 0) (by decide) (by decide) (by decide)
    (by decide)
  simpa using h

/-- Claim C1, evaluation at the failing input: with count 25, batch size
10 and no existing users (all requests succeeding) create_users returns
three batches of ten users each, thirty identifiers total forming the
contiguous range 1 .. 30 — not batches of sizes 10, 10, 5 covering
exactly 25 identifiers as the claim states. -/
theorem spec_c1_code_eval :
    (create_users 25 10 0 (fun _ => true)).users =
      some [batchUsernames 1 10, batchUsernames 11 10, batchUsernames 21 10]
  ∧ ((create_users 25 10 0 (fun _ => true)).users.getD []).map List.length =
      [10, 10, 10]
  ∧ ((create_users 25 10 0 (fun _ => true)).users.getD []).flatten =
      (List.range 30).map (fun k => username (1 + k))
  ∧ ((create_users 25 10 0 (fun _ => true)).users.getD []).flatten.length = 30 := by
  decide

theorem create_users_single_batch (count : Nat) (hc : 1 ≤ count)
    (postOk : Nat → Bool) (h0 : postOk 0 = true) :
    create_users count count 0 postOk =
      { users := some [batchUsernames 1 count],
        posts := [batchUsernames 1 count], cleanup := [] } := by
  obtain ⟨c, rfl⟩ : ∃ c, count = c + 1 := ⟨count - 1, by omega⟩
  simp [create_users, createLoop, h0,
    show (1:Nat) ≤ c + 1 from by omega,
    show ¬(1 + (c + 1) ≤ c + 1) from by omega]

/-- Claim C9: a 403 on the list-users discovery call raises the
unrecoverable invalid-token error and run_stress_test aborts at once with
no creation request and no cleanup attempted, whereas any other falsy
discovery response is non-fatal: discovery returns the empty user list. -/
theorem spec_c9 (listResp : ListUsersResp) (count batchSize : Nat)
    (postOk : Nat → Bool) :
    (listResp.status = 403 →
      find_existing_stress_test_users listResp = Except.error invalidTokenMsg
      ∧ run_stress_test count batchSize listResp postOk =
          { error := some invalidTokenMsg, users := none, posts := [], cleanup := [] })
  ∧ (400 ≤ listResp.status → listResp.status ≠ 403 →
      find_existing_stress_test_users listResp = Except.ok []) := by
  constructor
  · intro h403
    have hok : listResp.ok = false := by
      unfold ListUsersResp.ok
      rw [h403]
      decide
    have hfind : find_existing_stress_test_users listResp =
        Except.error invalidTokenMsg := by
      unfold find_existing_stress_test_users
      rw [hok]
      simp [h403]
    exact ⟨hfind, by simp [run_stress_test, hfind]⟩
  · intro h400 hne
    have hok : listResp.ok = false := by
      unfold ListUsersResp.ok
      rw [decide_eq_false_iff_not]
      omega
    simp [find_existing_stress_test_users, hok, hne]

theorem spec_c9_witness :
    (find_existing_stress_test_users ⟨403, []⟩ = Except.error invalidTokenMsg
      ∧ run_stress_test 3 2 ⟨403, []⟩ (fun _ => true) =
          { error := some invalidTokenMsg, users := none, posts := [], cleanup := [] })
  ∧ find_existing_stress_test_users ⟨500, []⟩ = Except.ok [] :=
  ⟨(spec_c9 ⟨403, []⟩ 3 2 (fun _ => true)).1 rfl,
    (spec_c9 ⟨500, []⟩ 0 0 (fun _ => true)).2 (by decide) (by decide)⟩

/-- Claim C10: for count at least 1, when the configured batch size
exceeds count, run_stress_test clamps it down to count before creation,
so create_users is invoked with a batch size at most count and, with no
matching existing users and a successful creation request, produces
exactly one batch containing exactly count identifiers. -/
theorem spec_c10 (count batchSize : Nat) (listResp : ListUsersResp)
    (postOk : Nat → Bool) (hc : 1 ≤ count) (hb : count < batchSize)
    (hok : listResp.ok = true)
    (hnone : listResp.names.filter (fun n => n.startsWith USERNAME_PREFIX) = [])
    (h0 : postOk 0 = true) :
    clampBatchSize count batchSize = count
  ∧ clampBatchSize count batchSize ≤ count
  ∧ run_stress_test count batchSize listResp postOk =
      { error := none, users := some [batchUsernames 1 count],
        posts := [batchUsernames 1 count], cleanup := [] }
  ∧ (batchUsernames 1 count).length = count := by
  have hclamp : clampBatchSize count batchSize = count := by
    unfold clampBatchSize
    rw [if_pos hb]
  refine ⟨hclamp, Nat.le_of_eq hclamp, ?_, ?_⟩
  · have hfind : find_existing_stress_test_users listResp = Except.ok [] := by
      unfold find_existing_stress_test_users
      rw [hok]
      simp [hnone]
    simp [run_stress_test, hfind, hclamp,
      create_users_single_batch count hc postOk h0]
  · simp [batchUsernames]

theorem spec_c10_witness :
    clampBatchSize 5 8 = 5
  ∧ clampBatchSize 5 8 ≤ 5
  ∧ run_stress_test 5 8 ⟨200, []⟩ (fun _ => true) =
      { error := none, users := some [batchUsernames 1 5],
        posts := [batchUsernames 1 5], cleanup := [] }
  ∧ (batchUsernames 1 5).length = 5 :=
  spec_c10 5 8 ⟨200, []⟩ (fun _ => true) (by decide) (by decide) (by decide)
    (by decide) (by decide)

end HubStress
